import Mathlib

/-
  Verification development for the git-post repository
  (src/github_utils.py, src/ollama_generator.py, src/app.py).

  The Python code is shallowly embedded: every network or subprocess
  interaction is replaced by an explicit, deterministic environment record
  (a function from request parameters to the response the outside world
  would give), and each Python function becomes a total Lean function over
  that environment.  Python strings are modelled as Lean `String`
  (≅ `List Char`, matching Python's code-point view of `str`), Python
  exceptions as `Except`, and `None`-returning functions as `Option`.

  Unbounded `while True:` pagination loops are embedded with an explicit
  fuel parameter.  The fuel bounds are chosen so that the Python loop can
  never perform more iterations than the fuel allows:
  * the repository-listing loop stops as soon as 300 items have
    accumulated and every non-final iteration adds at least one item, so
    it performs at most 300 iterations plus a final one (fuel 301);
  * the commit loop stops as soon as 10 commits have accumulated and every
    non-final iteration adds at least one commit, so it performs at most
    10 iterations (fuel 11);
  * the blank-line-collapsing loop shortens the string by at least one
    character per iteration (fuel `length + 1`).
  With those bounds the fuel-exhaustion branch is unreachable and the
  embedding agrees with the Python loop on every input.
-/

/-! ### Python string primitives (str.strip, substring test, split, join) -/

/-- Character class stripped by Python `str.strip()` (ASCII whitespace). -/
def isPyWs (c : Char) : Bool :=
  c = ' ' || c = '\t' || c = '\n' || c = '\r' || c = '\x0b' || c = '\x0c'

/-- Python `str.strip()` on a list of characters: drop leading and trailing
whitespace. -/
def stripChars (l : List Char) : List Char :=
  ((l.dropWhile isPyWs).reverse.dropWhile isPyWs).reverse

/-- Python `str.strip()`. -/
def pyStrip (s : String) : String :=
  String.mk (stripChars s.toList)

/-- Boolean test that `pat` occurs at the start of `l`
(Python `str.startswith`, used to build the substring test). -/
def listStarts (pat : List Char) (l : List Char) : Bool :=
  match pat, l with
  | [], _ => true
  | _ :: _, [] => false
  | a :: as', b :: bs => a = b && listStarts as' bs

/-- Boolean test that `pat` occurs somewhere inside `l`
(Python `pat in s` on strings). -/
def listHas (pat : List Char) : List Char → Bool
  | [] => listStarts pat []
  | c :: cs => listStarts pat (c :: cs) || listHas pat cs

/-- Python `str.split('\n')` on a list of characters. -/
def splitNl : List Char → List (List Char)
  | [] => [[]]
  | c :: rest =>
    if c = '\n' then [] :: splitNl rest
    else
      match splitNl rest with
      | [] => [c] :: []
      | l :: ls => (c :: l) :: ls

/-- Python `'\n'.join` on lists of characters. -/
def joinNl : List (List Char) → List Char
  | [] => []
  | [l] => l
  | l :: l' :: ls => l ++ '\n' :: joinNl (l' :: ls)

/-- Python `sep.join` on strings. -/
def joinSep (sep : String) : List String → String
  | [] => ""
  | [s] => s
  | s :: s' :: rest => s ++ sep ++ joinSep sep (s' :: rest)

/-- Helper for Python `str.split()` (no argument: split on whitespace runs,
dropping empty pieces); `acc` holds the reversed current word. -/
def pyWordsAux : List Char → List Char → List (List Char)
  | [], acc => if acc = [] then [] else [acc.reverse]
  | c :: rest, acc =>
    if isPyWs c then
      if acc = [] then pyWordsAux rest []
      else acc.reverse :: pyWordsAux rest []
    else pyWordsAux rest (c :: acc)

/-- Python `str.split()` (whitespace words). -/
def pyWords (s : String) : List String :=
  (pyWordsAux s.toList []).map String.mk

/-- Python `message.split('\n')[0]`: first line of a string. -/
def firstLine (s : String) : String :=
  String.mk ((splitNl s.toList).headD [])

/-- Python `s.replace(pat, rep)` on lists of characters: replace every
non-overlapping occurrence of `pat`, scanning left to right. -/
def replaceChars (pat rep : List Char) : List Char → List Char
  | [] => []
  | c :: cs =>
    if listStarts pat (c :: cs) then
      rep ++ replaceChars pat rep (cs.drop (pat.length - 1))
    else
      c :: replaceChars pat rep cs
  termination_by l => l.length
  decreasing_by
  · simp only [List.length_drop, List.length_cons]; omega
  · simp only [List.length_cons]; omega

/-! ### github_utils.py: data model -/

/-- The single exception class `GitHubAPIError` of github_utils.py.  The
code distinguishes failure cases only by the message it formats; each
constructor below corresponds to one `raise` site and carries the dynamic
parts of that site's message (rendered exactly by `GitHubAPIError.message`). -/
inductive GitHubAPIError where
  /-- `get_github_headers`, token absent from the environment. -/
  | missingToken
  /-- `fetch_user_repos`, HTTP 404. -/
  | userNotFound (username : String)
  /-- `fetch_user_repos`, HTTP 403. -/
  | rateLimitOrBadToken
  /-- `fetch_user_repos`, any other non-200 status. -/
  | apiError (status : Nat) (body : String)
  /-- `fetch_github_activity`, wrapper for non-`GitHubAPIError` exceptions
  (unreachable in this embedding, where no other exception can arise). -/
  | unexpected (msg : String)
  deriving Repr, DecidableEq

/-- The exact message string each raise site formats. -/
def GitHubAPIError.message : GitHubAPIError → String
  | .missingToken =>
      "GITHUB_PAT not found in environment variables. Please check your .env file."
  | .userNotFound u => "User \x27" ++ u ++ "\x27 not found on GitHub"
  | .rateLimitOrBadToken => "GitHub API rate limit exceeded or token invalid"
  | .apiError s b => "GitHub API error: " ++ toString s ++ " - " ++ b
  | .unexpected m => "Unexpected error: " ++ m

/-- One repository object as returned by the list-repositories endpoint
(the fields the code reads).  `updated_at` is the parsed UTC timestamp in
microseconds since the epoch (the code parses the ISO string with
`datetime.fromisoformat`). -/
structure Repo where
  name : String
  html_url : String
  description : Option String
  updated_at : Int
  language : Option String
  stargazers_count : Nat
  topics : List String
  deriving Repr, DecidableEq

/-- The nested `commit` object of a commit list item. -/
structure CommitData where
  message : String
  deriving Repr, DecidableEq

/-- One item of the list-commits endpoint (the code reads
`commit['commit']['message']`). -/
structure CommitItem where
  commit : CommitData
  deriving Repr, DecidableEq

/-- One page of the list-repositories endpoint: HTTP status, response body
text, and the decoded JSON item list. -/
structure RepoPage where
  status : Nat
  body : String
  items : List Repo
  deriving Repr, DecidableEq

/-- One page of the list-commits endpoint. -/
structure CommitPage where
  status : Nat
  items : List CommitItem
  deriving Repr, DecidableEq

/-- Response of the repository-contents endpoint for one filename:
either not found (any non-200 status) or found with an `encoding` tag and
the already-decoded content (base64 decoding is external library code and
is modelled as part of the environment). -/
inductive ContentResult where
  | missing
  | found (encoding : String) (decoded : String)
  deriving Repr, DecidableEq

/-- The outside world seen by github_utils.py for one fetch: the optional
`GITHUB_PAT` token and the platform's response to each request the code
can make (keyed by the request parameters that vary; the username is fixed
per environment). -/
structure GithubEnv where
  token : Option String
  repoPages : Nat → RepoPage
  commitPages : (repoName : String) → (sinceUs untilUs : Int) → (page : Nat) → CommitPage
  contents : (repoName : String) → (filename : String) → ContentResult

/-- The normalized per-repository activity record assembled by
`fetch_github_activity` (the `activity_entry` dict). -/
structure ActivityEntry where
  repo : String
  url : String
  description : Option String
  commits : List String
  readme : Option String
  language : Option String
  stars : Nat
  topics : List String
  deriving Repr, DecidableEq

/-! ### github_utils.py: operations -/

/-- `get_github_headers`: fails when `GITHUB_PAT` is absent, otherwise
returns the literal header list. -/
def get_github_headers (env : GithubEnv) : Except GitHubAPIError (List (String × String)) :=
  match env.token with
  | none => .error .missingToken
  | some t =>
      .ok [("Authorization", "token " ++ t),
           ("Accept", "application/vnd.github.v3+json"),
           ("User-Agent", "GitHub-LinkedIn-Generator")]

/-- The `while True` pagination loop of `fetch_user_repos`: per-page status
dispatch (404 / 403 / other non-200), stop on an empty page, stop once 300
repositories have accumulated.  Fuel 301 is never exhausted (each
non-final iteration adds at least one item and the loop stops at 300). -/
def repoPagesLoop (env : GithubEnv) (username : String) :
    Nat → Nat → List Repo → Except GitHubAPIError (List Repo)
  | 0, _, acc => .ok acc
  | fuel + 1, page, acc =>
    let resp := env.repoPages page
    if resp.status = 404 then .error (.userNotFound username)
    else if resp.status = 403 then .error .rateLimitOrBadToken
    else if resp.status ≠ 200 then .error (.apiError resp.status resp.body)
    else if resp.items = [] then .ok acc
    else
      let acc' := acc ++ resp.items
      if 300 ≤ acc'.length then .ok acc'
      else repoPagesLoop env username fuel (page + 1) acc'

/-- `fetch_user_repos`. -/
def fetch_user_repos (env : GithubEnv) (username : String) :
    Except GitHubAPIError (List Repo) :=
  match get_github_headers env with
  | .error e => .error e
  | .ok _ => repoPagesLoop env username 301 1 []

/-- The `while True` pagination loop of `fetch_repo_commits`.  Returns the
accumulated commit list (`[]` on a 409 "empty repository" status or on any
other non-200 status, both early `return []` in the code) together with
the number of page requests issued.  Fuel 11 is never exhausted (the loop
stops once 10 commits have accumulated and each non-final iteration adds
at least one). -/
def commitPagesLoop (env : GithubEnv) (repoName : String) (sinceUs untilUs : Int) :
    Nat → Nat → List CommitItem → List CommitItem × Nat
  | 0, _, acc => (acc, 0)
  | fuel + 1, page, acc =>
    let resp := env.commitPages repoName sinceUs untilUs page
    if resp.status = 409 then ([], 1)
    else if resp.status ≠ 200 then ([], 1)
    else if resp.items = [] then (acc, 1)
    else
      let acc' := acc ++ resp.items
      if 10 ≤ acc'.length then (acc', 1)
      else
        let r := commitPagesLoop env repoName sinceUs untilUs fuel (page + 1) acc'
        (r.1, r.2 + 1)

/-- `fetch_repo_commits`: header check, pagination loop, `commits[:5]`.
The `username` argument is sent as the `author` request parameter; the
environment already models the response to that fully-determined request. -/
def fetch_repo_commits (env : GithubEnv) (username repoName : String)
    (sinceUs untilUs : Int) : Except GitHubAPIError (List CommitItem) :=
  match get_github_headers env with
  | .error e => .error e
  | .ok _ => .ok ((commitPagesLoop env repoName sinceUs untilUs 11 1 []).1.take 5)

/-- The README filename variants tried in order by `fetch_repo_readme`. -/
def readme_files : List String := ["README.md", "README.rst", "README.txt", "README"]

/-- The filename loop of `fetch_repo_readme`: first 200 response whose
content is base64-encoded wins; the decoded text is cut to 500 characters
with a `"..."` marker when longer. -/
def readmeScan (env : GithubEnv) (repoName : String) : List String → Option String
  | [] => none
  | f :: rest =>
    match env.contents repoName f with
    | .found enc dec =>
        if enc = "base64" then
          some (String.mk (dec.toList.take 500) ++ (if 500 < dec.toList.length then "..." else ""))
        else readmeScan env repoName rest
    | .missing => readmeScan env repoName rest

/-- `fetch_repo_readme`. -/
def fetch_repo_readme (env : GithubEnv) (username repoName : String) :
    Except GitHubAPIError (Option String) :=
  match get_github_headers env with
  | .error e => .error e
  | .ok _ => .ok (readmeScan env repoName readme_files)

/-- Microseconds per day; `datetime` timestamps are modelled at microsecond
resolution (the resolution of `datetime.max.time()` = 23:59:59.999999). -/
def usPerDay : Int := 86400000000

/-- `datetime.combine(d, datetime.min.time())` in UTC, for a calendar day
modelled as a day index. -/
def dayStartUs (day : Int) : Int := day * usPerDay

/-- `datetime.combine(d, datetime.max.time())` in UTC. -/
def dayEndUs (day : Int) : Int := day * usPerDay + (usPerDay - 1)

/-- `filter_repos_by_date` as exercised by the pipeline: the app hands in
`date` objects (day indices here), which the code widens to the first and
last instant of the day before the inclusive comparison against each
repository's `updated_at`. -/
def filter_repos_by_date (repos : List Repo) (sinceDay untilDay : Int) : List Repo :=
  repos.filter fun r =>
    decide (dayStartUs sinceDay ≤ r.updated_at) && decide (r.updated_at ≤ dayEndUs untilDay)

/-- The body of the per-repository loop of `fetch_github_activity`
(lines 173-213): fetch commits, skip the repository when none qualify,
fetch the README, keep only the first line of each commit message, and
assemble the `activity_entry` dict.  `none` covers both the
`if not commits: continue` skip and the per-repository `except` that skips
a repository on any error. -/
def processRepo (env : GithubEnv) (username : String) (startDay endDay : Int)
    (repo : Repo) : Option ActivityEntry :=
  match fetch_repo_commits env username repo.name (dayStartUs startDay) (dayEndUs endDay) with
  | .error _ => none
  | .ok commits =>
    if commits = [] then none
    else
      match fetch_repo_readme env username repo.name with
      | .error _ => none
      | .ok readme =>
          some { repo := repo.name
                 url := repo.html_url
                 description := repo.description
                 commits := commits.map (fun c => firstLine c.commit.message)
                 readme := readme
                 language := repo.language
                 stars := repo.stargazers_count
                 topics := repo.topics }

/-- `fetch_github_activity`: list repositories (a listing failure
propagates), pre-filter by update date, then process each surviving
repository, skipping those that yield no entry. -/
def fetch_github_activity (env : GithubEnv) (username : String)
    (startDay endDay : Int) : Except GitHubAPIError (List ActivityEntry) :=
  match fetch_user_repos env username with
  | .error e => .error e
  | .ok allRepos =>
      .ok ((filter_repos_by_date allRepos startDay endDay).filterMap
            (processRepo env username startDay endDay))

/-! ### app.py: the submit handler (lines 143-161) -/

/-- Outcome of the "Fetch GitHub Activity" submit handler. -/
inductive SubmitOutcome where
  /-- `st.error` on a failed precondition. -/
  | errMsg (msg : String)
  /-- data stored in the session plus the success banner. -/
  | fetched (data : List ActivityEntry)
  /-- `st.warning` when the fetch returned an empty list. -/
  | warning (msg : String)
  /-- the two `st.error` messages of the `except` branch; carries the
  exception's message. -/
  | fetchFailed (msg : String)
  deriving Repr, DecidableEq

/-- The submit handler of app.py: empty-username check, `start >= end`
check, then the guarded call to `fetch_github_activity`. -/
def submitHandler (env : GithubEnv) (username : String) (startDay endDay : Int) :
    SubmitOutcome :=
  if username = "" then .errMsg "Please enter a GitHub username"
  else if endDay ≤ startDay then .errMsg "Start date must be before end date"
  else
    match fetch_github_activity env username startDay endDay with
    | .ok data => if data = [] then .warning "No repositories found with activity in the specified date range" else .fetched data
    | .error e => .fetchFailed e.message

/-! ### ollama_generator.py: the external process boundary -/

/-- Outcome of the `subprocess.run(['ollama', 'list'], ..., timeout=10)`
probe shared by `check_ollama_available` and `get_available_models`
(the environment is assumed stable across the two probes of one
generation call): either the process completed with a return code and
captured stdout, or the call raised (`TimeoutExpired` / `FileNotFoundError`),
carrying `str(e)`. -/
inductive ListOutcome where
  | completed (returncode : Int) (stdout : String)
  | failed (msg : String)
  deriving Repr, DecidableEq

/-- Outcome of `subprocess.run(["ollama", "run", model, prompt], ...)` in
`call_ollama` (no timeout is passed, so `TimeoutExpired` cannot occur):
either completed with a return code, stdout and stderr, or raised some
other exception (e.g. `FileNotFoundError`), carrying its message. -/
inductive RunOutcome where
  | completed (returncode : Int) (stdout : String) (stderr : String)
  | raised (msg : String)
  deriving Repr, DecidableEq

/-- Outcome of the `subprocess.run(cmd, ..., timeout=120)` call in
`call_ollama_generate`. -/
inductive RunGenOutcome where
  | completed (returncode : Int) (stdout : String) (stderr : String)
  | timedOut
  | binMissing
  deriving Repr, DecidableEq

/-- The external process world seen by ollama_generator.py: the response
to the `ollama list` probe and, for each `(prompt, model)` pair, the
outcome of the two run variants. -/
structure OllamaEnv where
  list : ListOutcome
  run : (prompt : String) → (model : String) → RunOutcome
  runGen : (prompt : String) → (model : String) → RunGenOutcome

/-! ### ollama_generator.py: operations -/

/-- `check_ollama_available`: `(returncode == 0, stdout)` on completion,
`(False, str(e))` when the probe raises. -/
def check_ollama_available (env : OllamaEnv) : Bool × String :=
  match env.list with
  | .completed rc out => (rc = 0, out)
  | .failed msg => (false, msg)

/-- `get_available_models`: on a zero return code, drop the header line of
the stripped stdout and take the first whitespace-separated word of every
non-blank line; `[]` on a non-zero code or any exception. -/
def get_available_models (env : OllamaEnv) : List String :=
  match env.list with
  | .completed rc out =>
      if rc = 0 then
        let lines := (splitNl (pyStrip out).toList).map String.mk
        (lines.drop 1).filterMap fun line =>
          if pyStrip line ≠ "" then some ((pyWords line).headD "") else none
      else []
  | .failed _ => []

/-- `call_ollama`: with `check=True`, a zero exit returns the stripped
stdout; a non-zero exit raises `CalledProcessError`, which the function
catches and converts into the string `"❌ Ollama Error: " + stderr.strip()`
returned as a NORMAL value.  Any other exception propagates
(`.error`). -/
def call_ollama (env : OllamaEnv) (prompt : String) (model : String) :
    Except String String :=
  match env.run prompt model with
  | .completed rc out err =>
      if rc = 0 then .ok (pyStrip out)
      else .ok ("❌ Ollama Error: " ++ pyStrip err)
  | .raised msg => .error msg

/-- `format_project_data` for one item: name in bold, optional readme
excerpt and language, up to 3 commit summaries, the GitHub link.
Python truthiness on `item.get(...)`: `None` and `""` are falsy. -/
def format_project_item (item : ActivityEntry) : String :=
  let base := "**" ++ item.repo ++ "**"
  let withReadme :=
    match item.readme with
    | some r => if r ≠ "" then base ++ " - " ++ r else base
    | none => base
  let withLang :=
    match item.language with
    | some lg => if lg ≠ "" then withReadme ++ " (Built with " ++ lg ++ ")" else withReadme
    | none => withReadme
  let withCommits :=
    if item.commits ≠ [] then
      withLang ++ "\nKey commits: " ++ joinSep ", " (item.commits.take 3)
    else withLang
  withCommits ++ "\nGitHub: " ++ item.url

/-- `format_project_data`. -/
def format_project_data (project_data : List ActivityEntry) : List String :=
  project_data.map format_project_item

/-- Calendar date as the code reads it off a Python `date`
(used only for `strftime` formatting in the prompt). -/
structure MyDate where
  year : Nat
  month : Nat
  day : Nat
  deriving Repr, DecidableEq

/-- Full English month names used by `strftime('%B')`. -/
def monthName (m : Nat) : String :=
  ["January", "February", "March", "April", "May", "June", "July",
   "August", "September", "October", "November", "December"].getD (m - 1) ""

/-- Zero-padded two-digit day, `strftime('%d')`. -/
def pad2 (n : Nat) : String :=
  if n < 10 then "0" ++ toString n else toString n

/-- Zero-padded four-digit year, `strftime('%Y')`. -/
def pad4 (n : Nat) : String :=
  if n < 10 then "000" ++ toString n
  else if n < 100 then "00" ++ toString n
  else if n < 1000 then "0" ++ toString n
  else toString n

/-- `start_date.strftime('%B %d')`. -/
def strftimeBD (d : MyDate) : String := monthName d.month ++ " " ++ pad2 d.day

/-- `end_date.strftime('%B %d, %Y')`. -/
def strftimeBDY (d : MyDate) : String :=
  monthName d.month ++ " " ++ pad2 d.day ++ ", " ++ pad4 d.year

/-- The `date_range` f-string of `create_linkedin_prompt`. -/
def date_range_str (start_date end_date : MyDate) : String :=
  strftimeBD start_date ++ " to " ++ strftimeBDY end_date

/-- `create_linkedin_prompt`: the full prompt template with the date
range, the two project counts, and the two formatted project blocks
interpolated, transcribed verbatim from the source f-string. -/
def create_linkedin_prompt (spotlight_projects other_projects : List ActivityEntry)
    (start_date end_date : MyDate) : String :=
  let date_range := date_range_str start_date end_date
  let spotlight_formatted := format_project_data spotlight_projects
  let other_formatted := format_project_data other_projects
  "You are a professional LinkedIn content creator. Generate a human-sounding, engaging LinkedIn post about recent GitHub activity.\n\nCONTEXT:\n- Date range: "
  ++ date_range
  ++ "\n- Spotlight projects: "
  ++ toString spotlight_projects.length
  ++ " main projects to highlight\n- Supporting projects: "
  ++ toString other_projects.length
  ++ " additional projects to mention briefly, mention all the projects but keep it concise.\n\nSPOTLIGHT PROJECTS:\n"
  ++ joinSep "\n" spotlight_formatted
  ++ "\n\nOTHER PROJECTS:\n"
  ++ (if other_formatted ≠ [] then joinSep "\n" other_formatted else "None")
  ++ "\n\nREQUIREMENTS:\n1. Start with an engaging title using ONE emoji at the beginning and end\n2. Write in first person with a humble, professional tone\n3. Create a \"Highlights\" or \"Spotlight\" section for main projects\n4. Briefly mention other projects in 1-2 lines each\n5. Include actual GitHub links as plain text (not markdown)\n6. End with a motivational statement about building/learning\n7. Add relevant hashtags (3-5 maximum)\n8. Keep total length under 2000 characters\n9. Use plain text formatting - NO markdown syntax\n10. Make it sound human and authentic, not corporate\n\nTONE EXAMPLES:\n- \"Just wrapped up an exciting month of coding...\"\n- \"Been busy building some cool projects...\"\n- \"Excited to share what I\x27ve been working on...\"\n\nSTRUCTURE:\n[Emoji] [Engaging Title] [Emoji]\n\n[Brief intro paragraph about the period/activity]\n\n✨ Highlights:\n- [Project 1 with brief description and link]\n- [Project 2 with brief description and link]\n- [Project 3 if applicable]\n\n[Brief mention of other projects if any]\n\n[Motivational closing line about learning/building]\n\n[3-5 relevant hashtags]\n\nGenerate the LinkedIn post now:"

/-- `call_ollama_generate`: zero exit returns stripped stdout; a non-zero
exit raises inside the `try`, so the raised message is re-wrapped by the
generic `except Exception` clause; `TimeoutExpired` and
`FileNotFoundError` produce their fixed messages. -/
def call_ollama_generate (env : OllamaEnv) (prompt : String) (model : String) :
    Except String String :=
  match env.runGen prompt model with
  | .completed rc out err =>
      if rc = 0 then .ok (pyStrip out)
      else
        .error ("Error calling Ollama: Ollama error: "
                ++ (if err = "" then "Unknown error" else err))
  | .timedOut => .error "Ollama request timed out. The model might be taking too long to respond."
  | .binMissing => .error "Ollama not found. Please install Ollama and make sure it\x27s in your PATH."

/-- The artifact substrings dropped by `clean_generated_post`. -/
def skip_patterns : List String := ["```", "---", "Here is", "Here\x27s"]

/-- The kept lines of `clean_generated_post`: each line is stripped, and
kept only when non-empty and free of every artifact substring. -/
def keptLines (raw : List Char) : List (List Char) :=
  (splitNl raw).filterMap fun line =>
    let l := stripChars line
    if l ≠ [] && !(skip_patterns.any fun p => listHas p.toList l) then some l else none

/-- The `while '\n\n\n' in cleaned_post:` collapsing loop.  Each iteration
with a match shortens the string, so fuel `length + 1` is never
exhausted. -/
def collapseBlank (nnn nn : List Char) : Nat → List Char → List Char
  | 0, s => s
  | fuel + 1, s =>
      if listHas nnn s then collapseBlank nnn nn fuel (replaceChars nnn nn s) else s

/-- `clean_generated_post`: split into lines, strip each, drop blank and
artifact lines, re-join with single newlines, run the blank-collapsing
loop, and strip the result. -/
def clean_generated_post (raw : String) : String :=
  String.mk (stripChars
    (collapseBlank ['\n', '\n', '\n'] ['\n', '\n']
      ((joinNl (keptLines raw.toList)).length + 1)
      (joinNl (keptLines raw.toList))))

/-- The internal failure cases of `generate_post_with_ollama`'s `try`
body; each constructor is one `raise`/propagation site. -/
inductive GenError where
  /-- `raise Exception(f"Ollama is not available: {message}")`. -/
  | backendUnavailable (msg : String)
  /-- `raise Exception("No Ollama models found. ...")`. -/
  | noModel
  /-- an exception propagating out of `call_ollama`. -/
  | runRaised (msg : String)
  deriving Repr, DecidableEq

/-- The `try` body of `generate_post_with_ollama`: availability probe,
model discovery with fallback to the first installed model, prompt
construction, invocation through `call_ollama`, and output cleanup. -/
def generate_post_body (env : OllamaEnv) (spotlight_projects other_projects : List ActivityEntry)
    (start_date end_date : MyDate) (model : String) : Except GenError String :=
  let avail := check_ollama_available env
  if avail.1 = false then .error (.backendUnavailable avail.2)
  else
    let available_models := get_available_models env
    let chosen : Option String :=
      if model ∈ available_models then some model
      else
        match available_models with
        | [] => none
        | m0 :: _ => some m0
    match chosen with
    | none => .error .noModel
    | some model' =>
      let prompt := create_linkedin_prompt spotlight_projects other_projects start_date end_date
      match call_ollama env prompt model' with
      | .error msg => .error (.runRaised msg)
      | .ok raw => .ok (clean_generated_post raw)

/-- `generate_post_with_ollama`: the `try` body with the blanket
`except Exception: return None` applied. -/
def generate_post_with_ollama (env : OllamaEnv)
    (spotlight_projects other_projects : List ActivityEntry)
    (start_date end_date : MyDate) (model : String) : Option String :=
  match generate_post_body env spotlight_projects other_projects start_date end_date model with
  | .ok s => some s
  | .error _ => none

/-! ### app.py: the refinement chat handler (lines 328-356) -/

/-- Role tag of a chat history entry. -/
inductive ChatRole where
  | user
  | ai
  deriving Repr, DecidableEq

/-- One chat history entry (`{"role": ..., "content": ...}`). -/
structure ChatTurn where
  role : ChatRole
  content : String
  deriving Repr, DecidableEq

/-- The session state the chat handler reads and writes. -/
structure SessionState where
  generated_post : String
  chat_history : List ChatTurn
  deriving Repr, DecidableEq

/-- What the handler shows besides mutating the session. -/
inductive ChatOutcome where
  /-- no message entered; nothing happens. -/
  | noAction
  /-- post updated, `st.rerun()`. -/
  | rerun
  /-- an `st.error` with this message. -/
  | errorShown (msg : String)
  deriving Repr, DecidableEq

/-- The `refine_prompt` f-string of the chat handler, verbatim. -/
def refinePrompt (post instruction : String) : String :=
  "You are helping refine a LinkedIn post. Here\x27s the current post:\n\n"
  ++ post
  ++ "\n\nThe user wants this change: "
  ++ instruction
  ++ "\n\nPlease provide the updated LinkedIn post that incorporates their feedback. Return ONLY the updated post, no explanations or additional text."

/-- The "Send Message" chat handler: append the user message to history
FIRST, then call `call_ollama` (default model "mistral") on the refinement
prompt; a truthy (non-empty) response replaces the post with its stripped
text and appends a success marker to history; an empty response shows an
error; an exception from `call_ollama` shows the exception's message. -/
def sendMessage (env : OllamaEnv) (userMessage : String) (s : SessionState) :
    SessionState × ChatOutcome :=
  if userMessage = "" then (s, .noAction)
  else
    let s1 : SessionState :=
      { s with chat_history := s.chat_history ++ [⟨.user, userMessage⟩] }
    match call_ollama env (refinePrompt s.generated_post userMessage) "mistral" with
    | .ok resp =>
        if resp ≠ "" then
          ({ generated_post := pyStrip resp
             chat_history := s1.chat_history ++ [⟨.ai, "Post updated successfully!"⟩] },
           .rerun)
        else (s1, .errorShown "Failed to get AI response")
    | .error msg => (s1, .errorShown ("Error communicating with AI: " ++ msg))

/-! ### Concrete fixtures used by witnesses and counterexamples -/

/-- A repository updated at the first instant of day 5. -/
def repoAlpha : Repo :=
  { name := "alpha"
    html_url := "https://github.com/u/alpha"
    description := some "d"
    updated_at := dayStartUs 5
    language := some "Python"
    stargazers_count := 3
    topics := ["t"] }

/-- GitHub environment: one repository (updated on day 5) with two
commits in range, no README. -/
def ghEnvOne : GithubEnv :=
  { token := some "tok"
    repoPages := fun p => if p = 1 then ⟨200, "", [repoAlpha]⟩ else ⟨200, "", []⟩
    commitPages := fun _ _ _ p =>
      if p = 1 then ⟨200, [⟨⟨"fix stuff\ndetails"⟩⟩, ⟨⟨"add tests"⟩⟩]⟩ else ⟨200, []⟩
    contents := fun _ _ => .missing }

/-- The activity record `fetch_github_activity` assembles from `ghEnvOne`. -/
def activityAlpha : ActivityEntry :=
  { repo := "alpha"
    url := "https://github.com/u/alpha"
    description := some "d"
    commits := ["fix stuff", "add tests"]
    readme := none
    language := some "Python"
    stars := 3
    topics := ["t"] }

/-- GitHub environment whose listing is empty. -/
def ghEnvEmpty : GithubEnv :=
  { token := some "tok"
    repoPages := fun _ => ⟨200, "", []⟩
    commitPages := fun _ _ _ _ => ⟨200, []⟩
    contents := fun _ _ => .missing }

/-- GitHub environment answering the listing request with HTTP 401. -/
def ghEnv401 : GithubEnv :=
  { ghEnvEmpty with repoPages := fun _ => ⟨401, "bad credentials", []⟩ }

/-- GitHub environment answering the listing request with HTTP 403. -/
def ghEnv403 : GithubEnv :=
  { ghEnvEmpty with repoPages := fun _ => ⟨403, "rate limited", []⟩ }

/-- GitHub environment answering the listing request with HTTP 500. -/
def ghEnv500 : GithubEnv :=
  { ghEnvEmpty with repoPages := fun _ => ⟨500, "oops", []⟩ }

/-- Eleven distinct commits. -/
def elevenCommits : List CommitItem :=
  (List.range 11).map fun i => ⟨⟨"c" ++ toString i⟩⟩

/-- GitHub environment whose commit endpoint returns 11 commits on the
first page. -/
def ghEnvEleven : GithubEnv :=
  { ghEnvOne with
    commitPages := fun _ _ _ p => if p = 1 then ⟨200, elevenCommits⟩ else ⟨200, []⟩ }

/-- Ollama environment: one installed model `llama2`, runs succeed. -/
def olEnvOk : OllamaEnv :=
  { list := .completed 0 "NAME ID SIZE\nllama2 abc 1GB\n"
    run := fun _ _ => .completed 0 "  Great post!  " ""
    runGen := fun _ _ => .completed 0 "Great post!" "" }

/-- Ollama environment: the probe succeeds but lists no models (header
line only). -/
def olEnvNoModels : OllamaEnv :=
  { list := .completed 0 "NAME ID SIZE"
    run := fun _ _ => .completed 0 "should never be consulted" ""
    runGen := fun _ _ => .completed 0 "" "" }

/-- Ollama environment: model `llama3` installed, but the generation
process exits with code 1 and stderr. -/
def olEnvExitErr : OllamaEnv :=
  { list := .completed 0 "NAME ID SIZE\nllama3 abc 1GB\n"
    run := fun _ _ => .completed 1 "" "boom"
    runGen := fun _ _ => .completed 1 "" "boom" }

/-- Ollama environment for the chat handler: the refinement run exits
non-zero with stderr "model crashed". -/
def olEnvCrash : OllamaEnv :=
  { list := .completed 0 "NAME ID SIZE\nmistral abc 1GB\n"
    run := fun _ _ => .completed 1 "" "model crashed"
    runGen := fun _ _ => .timedOut }

/-- Ollama environment whose generation run times out. -/
def olEnvTimeout : OllamaEnv :=
  { olEnvOk with runGen := fun _ _ => .timedOut }

/-- Ollama environment whose availability probe completes with a non-zero
return code. -/
def olEnvUnavail : OllamaEnv :=
  { olEnvOk with list := .completed 1 "daemon not running" }

/-- Ollama environment whose availability probe raises. -/
def olEnvProbeFail : OllamaEnv :=
  { olEnvOk with list := .failed "No such file or directory: \x27ollama\x27" }

/-- Ollama environment where the generation run itself raises. -/
def olEnvRunRaise : OllamaEnv :=
  { olEnvOk with run := fun _ _ => .raised "ollama vanished" }

/-- Minimal activity record "a" for the prompt-order counterexample. -/
def entryA : ActivityEntry :=
  { repo := "a", url := "ua", description := none, commits := [],
    readme := none, language := none, stars := 0, topics := [] }

/-- Minimal activity record "b" for the prompt-order counterexample. -/
def entryB : ActivityEntry :=
  { repo := "b", url := "ub", description := none, commits := [],
    readme := none, language := none, stars := 0, topics := [] }

/-! ### Theorems -/

/-- Claim C1: every `ActivityRecord` returned by `fetch_github_activity`
has a non-empty `commits` sequence; a repository whose commit fetch
yields no qualifying commits is omitted entirely. -/
theorem fetch_github_activity_commits_nonempty
    (env : GithubEnv) (username : String) (startDay endDay : Int)
    (res : List ActivityEntry)
    (h : fetch_github_activity env username startDay endDay = .ok res) :
    ∀ e ∈ res, e.commits ≠ [] := by
  intro e he
  unfold fetch_github_activity at h
  cases hfr : fetch_user_repos env username with
  | error err => rw [hfr] at h; exact absurd h (by simp)
  | ok repos =>
    rw [hfr] at h
    have hres : res = (filter_repos_by_date repos startDay endDay).filterMap
        (processRepo env username startDay endDay) := by
      cases h; rfl
    subst hres
    rcases List.mem_filterMap.mp he with ⟨repo, _, hpr⟩
    unfold processRepo at hpr
    cases hfc : fetch_repo_commits env username repo.name (dayStartUs startDay) (dayEndUs endDay) with
    | error err => rw [hfc] at hpr; exact absurd hpr (by simp)
    | ok commits =>
      rw [hfc] at hpr
      dsimp only at hpr
      by_cases hc : commits = []
      · rw [if_pos hc] at hpr; exact absurd hpr (by simp)
      · rw [if_neg hc] at hpr
        cases hrd : fetch_repo_readme env username repo.name with
        | error err => rw [hrd] at hpr; exact absurd hpr (by simp)
        | ok readme =>
          rw [hrd] at hpr
          dsimp only at hpr
          have he' : e.commits = commits.map (fun c => firstLine c.commit.message) := by
            cases hpr; rfl
          rw [he']
          simpa using hc

/-- Witness for C1 at a concrete environment: the fetch succeeds with one
record, and the theorem applies to it. -/
theorem fetch_github_activity_commits_nonempty_witness :
    fetch_github_activity ghEnvOne "u" 5 5 = .ok [activityAlpha] ∧
      ∀ e ∈ [activityAlpha], e.commits ≠ [] :=
  ⟨rfl, fetch_github_activity_commits_nonempty ghEnvOne "u" 5 5 [activityAlpha] rfl⟩

/-- Claim C2 (code bug): when the refinement invocation exits non-zero,
the chat handler does NOT leave the post unchanged — `call_ollama`
converts the failure into the truthy string `"❌ Ollama Error: ..."`, so
the handler replaces the post with that error text and appends both the
user turn and the "Post updated successfully!" marker to history,
contradicting both the claim and the handler's own dead failure branch. -/
theorem sendMessage_nonzero_exit_clobbers_post :
    sendMessage olEnvCrash "shorten it" { generated_post := "My post", chat_history := [] }
      = ({ generated_post := "❌ Ollama Error: model crashed",
           chat_history := [⟨.user, "shorten it"⟩, ⟨.ai, "Post updated successfully!"⟩] },
         .rerun)
    ∧ "❌ Ollama Error: model crashed" ≠ "My post" := by
  exact ⟨rfl, by decide⟩

/-- Counterexample to C4: with `start = end = 5` (so `start ≥ end`),
`fetch_github_activity` performs no precondition check — it proceeds to
the listing request and returns whatever the network yields (a non-empty
result on one environment, an empty one on another), instead of rejecting
before any network call. -/
theorem fetch_github_activity_no_precondition_check :
    fetch_github_activity ghEnvOne "alice" 5 5 = .ok [activityAlpha] ∧
      fetch_github_activity ghEnvEmpty "alice" 5 5 = .ok [] :=
  ⟨rfl, rfl⟩

/-- Claim C4 as amended: the `start ≥ end` guard lives in the app's submit
handler, which rejects the request with an error message before invoking
`fetch_github_activity`; in that branch the outcome is independent of the
network environment (no network call is attempted). -/
theorem submitHandler_rejects_inverted_window
    (env env' : GithubEnv) (username : String) (startDay endDay : Int)
    (hu : username ≠ "") (hd : endDay ≤ startDay) :
    submitHandler env username startDay endDay = .errMsg "Start date must be before end date" ∧
      submitHandler env username startDay endDay = submitHandler env' username startDay endDay := by
  unfold submitHandler
  rw [if_neg hu, if_pos hd, if_neg hu, if_pos hd]
  exact ⟨rfl, rfl⟩

/-- Witness for the amended C4 at concrete inputs. -/
theorem submitHandler_rejects_inverted_window_witness :
    submitHandler ghEnvOne "alice" 7 7 = .errMsg "Start date must be before end date" ∧
      submitHandler ghEnvOne "alice" 7 7 = submitHandler ghEnvEmpty "alice" 7 7 :=
  submitHandler_rejects_inverted_window ghEnvOne ghEnvEmpty "alice" 7 7 (by decide) (by decide)

/-- Counterexample to C5: HTTP 401 (rejected credential) is NOT mapped to
an auth-specific error kind — it lands in the same generic
status-plus-body branch as any other non-2xx status (compare the 500
case), and HTTP 403 yields a single error conflating "rate limit
exceeded" with "token invalid" rather than distinguishing
`AuthError` from `RateLimitedError`. -/
theorem fetch_user_repos_401_not_auth_specific :
    fetch_user_repos ghEnv401 "alice" = .error (.apiError 401 "bad credentials") ∧
      fetch_user_repos ghEnv500 "alice" = .error (.apiError 500 "oops") ∧
      fetch_user_repos ghEnv403 "alice" = .error .rateLimitOrBadToken :=
  ⟨rfl, rfl, rfl⟩

/-- Claim C5 as amended: the listing transport raises a single
`GitHubAPIError` class whose message distinguishes exactly these cases —
a missing credential (before any request), user-not-found on 404, a
combined rate-limit-or-invalid-token message on 403, and a generic
message carrying the status code and response body on every other
non-200 status (401 included). -/
theorem fetch_user_repos_error_classification
    (env : GithubEnv) (username tk : String) (s : Nat) (body : String) (items : List Repo) :
    (env.token = none → fetch_user_repos env username = .error .missingToken)
    ∧ (env.token = some tk → env.repoPages 1 = ⟨404, body, items⟩ →
        fetch_user_repos env username = .error (.userNotFound username))
    ∧ (env.token = some tk → env.repoPages 1 = ⟨403, body, items⟩ →
        fetch_user_repos env username = .error .rateLimitOrBadToken)
    ∧ (env.token = some tk → env.repoPages 1 = ⟨s, body, items⟩ →
        s ≠ 200 → s ≠ 404 → s ≠ 403 →
        fetch_user_repos env username = .error (.apiError s body)) := by
  refine ⟨?_, ?_, ?_, ?_⟩
  · intro ht
    simp [fetch_user_repos, get_github_headers, ht]
  · intro ht hp
    simp [fetch_user_repos, get_github_headers, ht, repoPagesLoop, hp]
  · intro ht hp
    simp [fetch_user_repos, get_github_headers, ht, repoPagesLoop, hp]
  · intro ht hp h200 h404 h403
    simp [fetch_user_repos, get_github_headers, ht, repoPagesLoop, hp, h200, h404, h403]

/-- Witness for the amended C5 at concrete environments. -/
theorem fetch_user_repos_error_classification_witness :
    fetch_user_repos ghEnv401 "bob" = .error (.apiError 401 "bad credentials") ∧
      fetch_user_repos ghEnv403 "bob" = .error .rateLimitOrBadToken :=
  ⟨(fetch_user_repos_error_classification ghEnv401 "bob" "tok" 401 "bad credentials" []).2.2.2
      rfl rfl (by decide) (by decide) (by decide),
   (fetch_user_repos_error_classification ghEnv403 "bob" "tok" 403 "rate limited" []).2.2.1
      rfl rfl⟩

/-- Counterexample to C3: the invocation actually used by the generation
pipeline (`call_ollama`) does NOT fail on a non-zero exit — it catches
`CalledProcessError` and returns the error-marker text as an ordinary
success value (and, having no timeout argument, can never time out). -/
theorem call_ollama_nonzero_exit_no_failure :
    call_ollama olEnvExitErr "p" "llama3" = .ok "❌ Ollama Error: boom" :=
  rfl

/-- Claim C3 as amended: `call_ollama_generate` (unused by the pipeline)
fails on a non-zero exit with an error carrying the captured stderr and
on timeout with a fixed timeout error, while `call_ollama` — the
invocation `generate_post_with_ollama` actually performs — returns the
captured stderr wrapped in an error-marker string as a normal value. -/
theorem ollama_invoke_failure_classification
    (env : OllamaEnv) (prompt model : String) (rc : Int) (out err : String) :
    (env.runGen prompt model = .completed rc out err → rc ≠ 0 →
      call_ollama_generate env prompt model =
        .error ("Error calling Ollama: Ollama error: "
                ++ (if err = "" then "Unknown error" else err)))
    ∧ (env.runGen prompt model = .timedOut →
      call_ollama_generate env prompt model =
        .error "Ollama request timed out. The model might be taking too long to respond.")
    ∧ (env.run prompt model = .completed rc out err → rc ≠ 0 →
      call_ollama env prompt model = .ok ("❌ Ollama Error: " ++ pyStrip err)) := by
  refine ⟨?_, ?_, ?_⟩
  · intro h hrc
    simp [call_ollama_generate, h, hrc]
  · intro h
    simp [call_ollama_generate, h]
  · intro h hrc
    simp [call_ollama, h, hrc]

/-- Witness for the amended C3 at concrete environments. -/
theorem ollama_invoke_failure_classification_witness :
    call_ollama_generate olEnvExitErr "p" "m" =
      .error "Error calling Ollama: Ollama error: boom" ∧
      call_ollama_generate olEnvTimeout "p" "m" =
        .error "Ollama request timed out. The model might be taking too long to respond." ∧
      call_ollama olEnvExitErr "p" "m" = .ok "❌ Ollama Error: boom" :=
  ⟨(ollama_invoke_failure_classification olEnvExitErr "p" "m" 1 "" "boom").1 rfl (by decide),
   (ollama_invoke_failure_classification olEnvTimeout "p" "m" 0 "" "").2.1 rfl,
   (ollama_invoke_failure_classification olEnvExitErr "p" "m" 1 "" "boom").2.2 rfl (by decide)⟩

/-- Claim C6: when the requested model is not installed but at least one
model is, `generate_post_with_ollama` falls back to the first installed
model and (provided the spawned process does not raise) still returns a
result; when no model is installed, the `try` body fails with the
no-models-available error without consulting the process-run part of the
environment at all (no generation process is spawned), and the function
returns `none` (the blanket handler converts every internal failure to
`None`, see the C10 theorems). -/
theorem generate_post_fallback_and_no_model
    (env : OllamaEnv) (spot oth : List ActivityEntry) (sd ed : MyDate)
    (model : String) (out : String) :
    (env.list = .completed 0 out →
      model ∉ get_available_models env →
      ∀ m0 rest, get_available_models env = m0 :: rest →
      ∀ rc o e, env.run (create_linkedin_prompt spot oth sd ed) m0 = .completed rc o e →
      ∃ s, generate_post_with_ollama env spot oth sd ed model = some s)
    ∧ (env.list = .completed 0 out →
      get_available_models env = [] →
      generate_post_with_ollama env spot oth sd ed model = none ∧
      ∀ run', generate_post_body { env with run := run' } spot oth sd ed model
                = .error .noModel) := by
  constructor
  · intro hl hnm m0 rest hm rc o e hr
    unfold generate_post_with_ollama generate_post_body
    simp only [check_ollama_available, hl, hm]
    rw [if_neg (by simp)]
    simp only [hm] at hnm
    rw [if_neg hnm]
    dsimp only
    by_cases hrc : rc = 0
    · subst hrc
      simp [call_ollama, hr]
    · exact ⟨clean_generated_post ("❌ Ollama Error: " ++ pyStrip e),
        by simp [call_ollama, hr, hrc]⟩
  · intro hl hm
    constructor
    · unfold generate_post_with_ollama generate_post_body
      simp only [check_ollama_available, hl, hm]
      rw [if_neg (by simp)]
      simp
    · intro run'
      unfold generate_post_body
      have hm' : get_available_models { env with run := run' } = [] := hm
      rw [if_neg (by simp [check_ollama_available, hl])]
      simp [hm']

/-- Witness for C6: fallback at `olEnvOk` (requested "llama3", installed
["llama2"]) yields a post; no installed models at `olEnvNoModels` yields
`none` with the internal no-model error and no spawn. -/
theorem generate_post_fallback_and_no_model_witness :
    (∃ s, generate_post_with_ollama olEnvOk [] [] ⟨2025, 10, 5⟩ ⟨2025, 10, 6⟩ "llama3" = some s)
    ∧ generate_post_with_ollama olEnvNoModels [] [] ⟨2025, 10, 5⟩ ⟨2025, 10, 6⟩ "llama3" = none
    ∧ generate_post_body
        { olEnvNoModels with run := fun _ _ => .completed 0 "never" "" }
        [] [] ⟨2025, 10, 5⟩ ⟨2025, 10, 6⟩ "llama3" = .error .noModel :=
  ⟨(generate_post_fallback_and_no_model olEnvOk [] [] ⟨2025, 10, 5⟩ ⟨2025, 10, 6⟩ "llama3"
        "NAME ID SIZE\nllama2 abc 1GB\n").1 rfl (by decide) "llama2" [] (by decide)
        0 "  Great post!  " "" rfl,
   ((generate_post_fallback_and_no_model olEnvNoModels [] [] ⟨2025, 10, 5⟩ ⟨2025, 10, 6⟩ "llama3"
        "NAME ID SIZE").2 rfl (by decide)).1,
   ((generate_post_fallback_and_no_model olEnvNoModels [] [] ⟨2025, 10, 5⟩ ⟨2025, 10, 6⟩ "llama3"
        "NAME ID SIZE").2 rfl (by decide)).2 _⟩

set_option maxRecDepth 20000 in
/-- Counterexample to C7: `create_linkedin_prompt` is order-sensitive.
`[entryA, entryB]` and `[entryB, entryA]` are the same set of records,
yet presenting them in a different iteration order changes the output —
the rendered project blocks follow the input list order, not a canonical
order of the set. -/
theorem create_linkedin_prompt_order_dependent :
    create_linkedin_prompt [entryA, entryB] [] ⟨2025, 10, 5⟩ ⟨2025, 10, 6⟩
      ≠ create_linkedin_prompt [entryB, entryA] [] ⟨2025, 10, 5⟩ ⟨2025, 10, 6⟩ := by
  decide

/-- Claim C7 as amended: `create_linkedin_prompt` is pure and
deterministic — its output is a function of nothing but the lengths of
the two project lists, their per-item rendered blocks in list order, and
the formatted date range; byte-identical inputs give byte-identical
output.  (The output order of blocks follows the input list order, so
permuting a list changes the output; see the counterexample.) -/
theorem create_linkedin_prompt_deterministic
    (s1 s2 o1 o2 : List ActivityEntry) (sd1 ed1 sd2 ed2 : MyDate)
    (hs : s1.length = s2.length) (ho : o1.length = o2.length)
    (hfs : format_project_data s1 = format_project_data s2)
    (hfo : format_project_data o1 = format_project_data o2)
    (hd : date_range_str sd1 ed1 = date_range_str sd2 ed2) :
    create_linkedin_prompt s1 o1 sd1 ed1 = create_linkedin_prompt s2 o2 sd2 ed2 := by
  unfold create_linkedin_prompt
  rw [hs, ho, hfs, hfo, hd]

/-- Witness for the amended C7: two structurally identical calls agree. -/
theorem create_linkedin_prompt_deterministic_witness :
    create_linkedin_prompt [entryA] [entryB] ⟨2025, 10, 5⟩ ⟨2025, 10, 6⟩
      = create_linkedin_prompt [entryA] [entryB] ⟨2025, 10, 5⟩ ⟨2025, 10, 6⟩ :=
  create_linkedin_prompt_deterministic [entryA] [entryA] [entryB] [entryB]
    ⟨2025, 10, 5⟩ ⟨2025, 10, 6⟩ ⟨2025, 10, 5⟩ ⟨2025, 10, 6⟩ rfl rfl rfl rfl rfl

/-- Characterisation of `listStarts`: `pat` starts `l` iff `l`
decomposes as `pat ++ t`. -/
theorem listStarts_iff (pat l : List Char) :
    listStarts pat l = true ↔ ∃ t, l = pat ++ t := by
  induction pat generalizing l with
  | nil => simp [listStarts]
  | cons a as ih =>
    cases l with
    | nil => simp [listStarts]
    | cons b bs =>
      simp only [listStarts, Bool.and_eq_true, decide_eq_true_eq, ih, List.cons_append,
        List.cons.injEq]
      constructor
      · rintro ⟨rfl, t, rfl⟩; exact ⟨t, rfl, rfl⟩
      · rintro ⟨t, rfl, rfl⟩; exact ⟨rfl, t, rfl⟩

/-- Characterisation of `listHas`: `pat` occurs in `l` iff `l`
decomposes as `s ++ pat ++ t`. -/
theorem listHas_iff (pat l : List Char) :
    listHas pat l = true ↔ ∃ s t, l = s ++ pat ++ t := by
  induction l with
  | nil =>
    show listStarts pat [] = true ↔ _
    rw [listStarts_iff]
    constructor
    · rintro ⟨t, h⟩; exact ⟨[], t, by simpa using h⟩
    · rintro ⟨s, t, h⟩
      have h3 : s = [] ∧ pat = [] ∧ t = [] := by simpa using h.symm
      exact ⟨[], by simp [h3.2.1]⟩
  | cons c cs ih =>
    show (listStarts pat (c :: cs) || listHas pat cs) = true ↔ _
    rw [Bool.or_eq_true, listStarts_iff, ih]
    constructor
    · rintro (⟨t, h⟩ | ⟨s, t, h⟩)
      · exact ⟨[], t, by simpa using h⟩
      · exact ⟨c :: s, t, by simp [h]⟩
    · rintro ⟨s, t, h⟩
      cases s with
      | nil => exact .inl ⟨t, by simpa using h⟩
      | cons x xs =>
        have h' : c = x ∧ cs = xs ++ pat ++ t := by simpa using h
        exact .inr ⟨xs, t, h'.2⟩

/-- A string free of `"\n\n"` is also free of `"\n\n\n"`. -/
theorem listHas_triple_of_double (l : List Char)
    (h : listHas ['\n', '\n'] l = false) :
    listHas ['\n', '\n', '\n'] l = false := by
  by_contra hc
  rw [Bool.not_eq_false] at hc
  rcases (listHas_iff _ _).mp hc with ⟨s, t, rfl⟩
  have ht : listHas ['\n', '\n'] (s ++ ['\n', '\n', '\n'] ++ t) = true :=
    (listHas_iff _ _).mpr ⟨s, '\n' :: t, by simp⟩
  rw [ht] at h
  cases h

/-- `stripChars l` is an infix of `l`. -/
theorem stripChars_infix (l : List Char) :
    ∃ s t, l = s ++ stripChars l ++ t := by
  refine ⟨l.takeWhile isPyWs, ((l.dropWhile isPyWs).reverse.takeWhile isPyWs).reverse, ?_⟩
  unfold stripChars
  conv_lhs => rw [← List.takeWhile_append_dropWhile (p := isPyWs) (l := l)]
  rw [List.append_assoc]
  congr 1
  calc l.dropWhile isPyWs
      = (l.dropWhile isPyWs).reverse.reverse := by rw [List.reverse_reverse]
    _ = ((l.dropWhile isPyWs).reverse.takeWhile isPyWs
          ++ (l.dropWhile isPyWs).reverse.dropWhile isPyWs).reverse := by
          rw [List.takeWhile_append_dropWhile]
    _ = ((l.dropWhile isPyWs).reverse.dropWhile isPyWs).reverse
          ++ ((l.dropWhile isPyWs).reverse.takeWhile isPyWs).reverse := by
          rw [List.reverse_append]

/-- Stripping cannot create a substring occurrence that was not already
in the unstripped string. -/
theorem listHas_stripChars_false (pat l : List Char)
    (h : listHas pat l = false) : listHas pat (stripChars l) = false := by
  by_contra hc
  rw [Bool.not_eq_false] at hc
  rcases (listHas_iff _ _).mp hc with ⟨s, t, hst⟩
  rcases stripChars_infix l with ⟨s0, t0, hl⟩
  have ht : listHas pat l = true := by
    refine (listHas_iff _ _).mpr ⟨s0 ++ s, t ++ t0, ?_⟩
    rw [hl, hst]
    simp
  rw [ht] at h
  cases h

/-- Every character of `stripChars l` is a character of `l`. -/
theorem mem_stripChars {c : Char} {l : List Char} (h : c ∈ stripChars l) : c ∈ l := by
  rcases stripChars_infix l with ⟨s, t, hl⟩
  rw [hl]
  simp [h]

/-- The pieces of `splitNl` contain no newline character. -/
theorem splitNl_no_newline (cs : List Char) : ∀ l ∈ splitNl cs, '\n' ∉ l := by
  induction cs with
  | nil =>
    intro l hl
    simp only [splitNl, List.mem_singleton] at hl
    subst hl
    simp
  | cons c cs ih =>
    intro l hl
    simp only [splitNl] at hl
    by_cases hc : c = '\n'
    · rw [if_pos hc] at hl
      rcases List.mem_cons.mp hl with rfl | h
      · simp
      · exact ih l h
    · rw [if_neg hc] at hl
      cases hsp : splitNl cs with
      | nil =>
        rw [hsp] at hl
        rcases List.mem_cons.mp hl with rfl | h
        · intro hm
          rcases List.mem_singleton.mp hm with h1
          exact hc h1.symm
        · simp at h
      | cons l0 ls =>
        rw [hsp] at hl
        rcases List.mem_cons.mp hl with rfl | h
        · intro hm
          rcases List.mem_cons.mp hm with h1 | h1
          · exact hc h1.symm
          · exact ih l0 (by rw [hsp]; exact List.mem_cons_self _ _) h1
        · exact ih l (by rw [hsp]; exact List.mem_cons_of_mem _ h)

/-- Every kept line of `clean_generated_post` is non-empty and
newline-free. -/
theorem keptLines_spec (raw : List Char) :
    ∀ l ∈ keptLines raw, l ≠ [] ∧ '\n' ∉ l := by
  intro l hl
  rcases List.mem_filterMap.mp hl with ⟨line, hline, hsome⟩
  dsimp only [keptLines] at hsome
  by_cases hcond : (decide (stripChars line ≠ [])
      && !(skip_patterns.any fun p => listHas p.toList (stripChars line))) = true
  · rw [if_pos hcond] at hsome
    cases hsome
    rcases Bool.and_eq_true_iff.mp hcond with ⟨h1, _⟩
    refine ⟨of_decide_eq_true h1, fun hm => ?_⟩
    exact splitNl_no_newline raw line hline (mem_stripChars hm)
  · rw [if_neg hcond] at hsome
    cases hsome

/-- A newline-free list prepended to `r` neither contains nor creates a
`"\n\n"` occurrence beyond those of `r`. -/
theorem listHas_nn_append (l r : List Char) (h : '\n' ∉ l) :
    listHas ['\n', '\n'] (l ++ r) = listHas ['\n', '\n'] r := by
  induction l with
  | nil => rfl
  | cons c cs ih =>
    have hc : c ≠ '\n' := fun hc => h (hc ▸ List.mem_cons_self _ _)
    have hcs : '\n' ∉ cs := fun hm => h (List.mem_cons_of_mem _ hm)
    have hd : (decide ('\n' = c)) = false := decide_eq_false (fun h' => hc h'.symm)
    show (listStarts ['\n', '\n'] (c :: (cs ++ r)) || listHas ['\n', '\n'] (cs ++ r)) = _
    rw [ih hcs]
    have hs : listStarts ['\n', '\n'] (c :: (cs ++ r)) = false := by
      show (decide ('\n' = c) && listStarts ['\n'] (cs ++ r)) = false
      rw [hd, Bool.false_and]
    rw [hs, Bool.false_or]

/-- The join of a non-empty-headed, newline-free block list does not
start with a newline. -/
theorem listStarts_nl_joinNl (l : List Char) (ls : List (List Char))
    (hne : l ≠ []) (hnl : '\n' ∉ l) :
    listStarts ['\n'] (joinNl (l :: ls)) = false := by
  cases l with
  | nil => exact absurd rfl hne
  | cons c cs =>
    have hc : c ≠ '\n' := fun h => hnl (h ▸ List.mem_cons_self _ _)
    have hd : (decide ('\n' = c)) = false := decide_eq_false (fun h => hc h.symm)
    cases ls with
    | nil =>
      show (decide ('\n' = c) && listStarts [] cs) = false
      rw [hd, Bool.false_and]
    | cons l' ls' =>
      show (decide ('\n' = c) && listStarts [] (cs ++ '\n' :: joinNl (l' :: ls'))) = false
      rw [hd, Bool.false_and]

/-- Joining non-empty newline-free lines with single newlines yields a
string with no two adjacent newlines. -/
theorem joinNl_no_double_newline (ls : List (List Char))
    (h : ∀ l ∈ ls, l ≠ [] ∧ '\n' ∉ l) :
    listHas ['\n', '\n'] (joinNl ls) = false := by
  induction ls with
  | nil => rfl
  | cons l ls ih =>
    cases ls with
    | nil =>
      have hl := (h l (List.mem_cons_self _ _)).2
      have h0 : listHas ['\n', '\n'] (l ++ []) = listHas ['\n', '\n'] [] :=
        listHas_nn_append l [] hl
      simpa using h0
    | cons l' ls' =>
      have hl := h l (List.mem_cons_self _ _)
      have hl' := h l' (by simp)
      have hrest : ∀ x ∈ l' :: ls', x ≠ [] ∧ '\n' ∉ x :=
        fun x hx => h x (List.mem_cons_of_mem _ hx)
      show listHas ['\n', '\n'] (l ++ '\n' :: joinNl (l' :: ls')) = false
      rw [listHas_nn_append l _ hl.2]
      show (listStarts ['\n', '\n'] ('\n' :: joinNl (l' :: ls'))
              || listHas ['\n', '\n'] (joinNl (l' :: ls'))) = false
      rw [ih hrest]
      have hs : listStarts ['\n', '\n'] ('\n' :: joinNl (l' :: ls')) = false := by
        show (decide ('\n' = '\n') && listStarts ['\n'] (joinNl (l' :: ls'))) = false
        rw [listStarts_nl_joinNl l' ls' hl'.1 hl'.2]
        simp
      rw [hs, Bool.false_or]

/-- Counterexample to C8: a single blank line is NOT preserved —
`clean_generated_post "a\n\nb"` removes it entirely (blank lines are
filtered out before joining, not collapsed), returning `"a\nb"` where the
claim demands `"a\n\nb"`. -/
theorem clean_generated_post_drops_single_blank :
    clean_generated_post "a\n\nb" = "a\nb" ∧
      clean_generated_post "a\n\nb" ≠ "a\n\nb" :=
  ⟨rfl, by decide⟩

/-- Claim C8 as amended: `clean_generated_post` strips every line and
drops each one that is blank or contains an artifact substring
(a code fence, `---`, "Here is" or "Here\x27s" anywhere in the line); the
survivors are joined with single newlines — the collapsing pass is
vacuous because the result contains no blank line at all (no two adjacent
newlines), and the whole result is trimmed. -/
theorem clean_generated_post_spec (raw : String) :
    clean_generated_post raw = String.mk (stripChars (joinNl (keptLines raw.toList)))
    ∧ listHas ['\n', '\n'] (clean_generated_post raw).toList = false := by
  have hk := keptLines_spec raw.toList
  have hnn : listHas ['\n', '\n'] (joinNl (keptLines raw.toList)) = false :=
    joinNl_no_double_newline _ hk
  have hnnn : listHas ['\n', '\n', '\n'] (joinNl (keptLines raw.toList)) = false :=
    listHas_triple_of_double _ hnn
  have hcollapse : collapseBlank ['\n', '\n', '\n'] ['\n', '\n']
      ((joinNl (keptLines raw.toList)).length + 1) (joinNl (keptLines raw.toList))
      = joinNl (keptLines raw.toList) := by
    show (if listHas ['\n', '\n', '\n'] (joinNl (keptLines raw.toList)) then _ else _) = _
    rw [if_neg (fun hcontra => by rw [hnnn] at hcontra; simp at hcontra)]
  constructor
  · unfold clean_generated_post
    rw [hcollapse]
  · show listHas ['\n', '\n']
      (String.mk (stripChars (collapseBlank ['\n', '\n', '\n'] ['\n', '\n']
        ((joinNl (keptLines raw.toList)).length + 1)
        (joinNl (keptLines raw.toList))))).toList = false
    rw [hcollapse]
    exact listHas_stripChars_false _ _ hnn

/-- The commit pagination loop issues at most `10 - acc.length` page
requests when entered with fewer than 10 accumulated commits: a further
page is requested only while fewer than 10 commits have accumulated, and
every continuing iteration adds at least one. -/
theorem commitPagesLoop_requests_le (env : GithubEnv) (repoName : String)
    (sinceUs untilUs : Int) :
    ∀ fuel page acc, acc.length ≤ 9 →
      (commitPagesLoop env repoName sinceUs untilUs fuel page acc).2 ≤ 10 - acc.length := by
  intro fuel
  induction fuel with
  | zero =>
    intro page acc hacc
    simp only [commitPagesLoop]
    omega
  | succ n ih =>
    intro page acc hacc
    simp only [commitPagesLoop]
    split
    next => simp; omega
    next =>
      split
      next => simp; omega
      next =>
        split
        next => simp; omega
        next h3 =>
          split
          next => simp; omega
          next h4 =>
            have hne : (env.commitPages repoName sinceUs untilUs page).items ≠ [] := h3
            have hpos := List.length_pos.mpr hne
            have hlen : acc.length + 1
                ≤ (acc ++ (env.commitPages repoName sinceUs untilUs page).items).length := by
              rw [List.length_append]; omega
            have h9 : (acc ++ (env.commitPages repoName sinceUs untilUs page).items).length ≤ 9 := by
              omega
            have hr := ih (page + 1)
              (acc ++ (env.commitPages repoName sinceUs untilUs page).items) h9
            dsimp only
            omega

/-- Counterexample to C9: when the first page of the commit endpoint
carries 11 commits (`per_page` is 100, so up to 100 can arrive at once),
the retrieval accumulates all 11 — more than the claimed fetch cap of
10 — before truncating the public result to the first 5. -/
theorem commit_fetch_can_exceed_ten :
    (commitPagesLoop ghEnvEleven "alpha" (dayStartUs 5) (dayEndUs 5) 11 1 []).1.length = 11 ∧
      fetch_repo_commits ghEnvEleven "u" "alpha" (dayStartUs 5) (dayEndUs 5)
        = .ok (elevenCommits.take 5) :=
  ⟨rfl, rfl⟩

/-- Claim C9 as amended: the per-repository commit retrieval stops
*paginating* once 10 commits have accumulated (at most 10 page requests),
but a single page may carry more than 10 commits, so more than 10 can be
fetched; the public result retains only the first 5 of the fetched
commits, and each commit entry stored in the activity record is the first
line of the commit message only. -/
theorem fetch_repo_commits_caps_and_first_line
    (env : GithubEnv) (username : String) (startDay endDay : Int)
    (repo : Repo) (e : ActivityEntry) (cs : List CommitItem)
    (hp : processRepo env username startDay endDay repo = some e)
    (hc : fetch_repo_commits env username repo.name (dayStartUs startDay) (dayEndUs endDay)
            = .ok cs) :
    e.commits = cs.map (fun c => firstLine c.commit.message)
    ∧ cs = (commitPagesLoop env repo.name (dayStartUs startDay) (dayEndUs endDay) 11 1 []).1.take 5
    ∧ cs.length ≤ 5
    ∧ (commitPagesLoop env repo.name (dayStartUs startDay) (dayEndUs endDay) 11 1 []).2 ≤ 10 := by
  have hcs : cs = (commitPagesLoop env repo.name (dayStartUs startDay) (dayEndUs endDay)
      11 1 []).1.take 5 := by
    unfold fetch_repo_commits at hc
    cases ht : get_github_headers env with
    | error err => rw [ht] at hc; exact absurd hc (by simp)
    | ok hd =>
      rw [ht] at hc
      dsimp only at hc
      cases hc
      rfl
  refine ⟨?_, hcs, ?_, ?_⟩
  · unfold processRepo at hp
    rw [hc] at hp
    dsimp only at hp
    by_cases he : cs = []
    · rw [if_pos he] at hp; exact absurd hp (by simp)
    · rw [if_neg he] at hp
      cases hrd : fetch_repo_readme env username repo.name with
      | error err => rw [hrd] at hp; exact absurd hp (by simp)
      | ok readme =>
        rw [hrd] at hp
        dsimp only at hp
        cases hp
        rfl
  · rw [hcs]
    have := List.length_take 5
      (commitPagesLoop env repo.name (dayStartUs startDay) (dayEndUs endDay) 11 1 []).1
    omega
  · have := commitPagesLoop_requests_le env repo.name (dayStartUs startDay) (dayEndUs endDay)
      11 1 [] (by simp)
    simpa using this

/-- Witness for the amended C9 at the concrete environment `ghEnvOne`. -/
theorem fetch_repo_commits_caps_and_first_line_witness :
    activityAlpha.commits
        = ([⟨⟨"fix stuff\ndetails"⟩⟩, ⟨⟨"add tests"⟩⟩] : List CommitItem).map
            (fun c => firstLine c.commit.message)
    ∧ ([⟨⟨"fix stuff\ndetails"⟩⟩, ⟨⟨"add tests"⟩⟩] : List CommitItem)
        = (commitPagesLoop ghEnvOne "alpha" (dayStartUs 5) (dayEndUs 5) 11 1 []).1.take 5
    ∧ ([⟨⟨"fix stuff\ndetails"⟩⟩, ⟨⟨"add tests"⟩⟩] : List CommitItem).length ≤ 5
    ∧ (commitPagesLoop ghEnvOne "alpha" (dayStartUs 5) (dayEndUs 5) 11 1 []).2 ≤ 10 :=
  fetch_repo_commits_caps_and_first_line ghEnvOne "u" 5 5 repoAlpha activityAlpha
    [⟨⟨"fix stuff\ndetails"⟩⟩, ⟨⟨"add tests"⟩⟩] rfl rfl

/-- Counterexample to C10: on a process-invocation failure (non-zero
exit), `generate_post_with_ollama` does NOT return `None` — `call_ollama`
swallows the failure into an error-marker string, which flows through the
cleanup step and is returned as if it were a generated post. -/
theorem generate_post_nonzero_exit_not_none :
    generate_post_with_ollama olEnvExitErr [] [] ⟨2025, 1, 1⟩ ⟨2025, 1, 2⟩ "llama3"
      = some "❌ Ollama Error: boom" :=
  rfl

/-- Claim C10 as amended: `generate_post_with_ollama` never propagates an
exception — an unavailable backend (non-zero probe exit or probe
exception), an empty model list, and an exception from the spawned run
all yield `None`, indistinguishable from one another by the caller; a
non-zero exit of the generation process, however, is converted into the
error-marker text and returned as the post. -/
theorem generate_post_failure_paths
    (env : OllamaEnv) (spot oth : List ActivityEntry) (sd ed : MyDate)
    (model : String) :
    (∀ rc out, env.list = .completed rc out → rc ≠ 0 →
        generate_post_with_ollama env spot oth sd ed model = none)
    ∧ (∀ msg, env.list = .failed msg →
        generate_post_with_ollama env spot oth sd ed model = none)
    ∧ (∀ out, env.list = .completed 0 out → get_available_models env = [] →
        generate_post_with_ollama env spot oth sd ed model = none)
    ∧ (∀ out msg, env.list = .completed 0 out →
        model ∈ get_available_models env →
        env.run (create_linkedin_prompt spot oth sd ed) model = .raised msg →
        generate_post_with_ollama env spot oth sd ed model = none)
    ∧ (∀ out rc o e, env.list = .completed 0 out →
        model ∈ get_available_models env →
        env.run (create_linkedin_prompt spot oth sd ed) model = .completed rc o e →
        rc ≠ 0 →
        generate_post_with_ollama env spot oth sd ed model
          = some (clean_generated_post ("❌ Ollama Error: " ++ pyStrip e))) := by
  refine ⟨?_, ?_, ?_, ?_, ?_⟩
  · intro rc out hl hrc
    unfold generate_post_with_ollama generate_post_body
    simp [check_ollama_available, hl, hrc]
  · intro msg hl
    unfold generate_post_with_ollama generate_post_body
    simp [check_ollama_available, hl]
  · intro out hl hm
    unfold generate_post_with_ollama generate_post_body
    simp only [check_ollama_available, hl, hm]
    rw [if_neg (by simp)]
    simp
  · intro out msg hl hm hr
    unfold generate_post_with_ollama generate_post_body
    simp only [check_ollama_available, hl]
    rw [if_neg (by simp)]
    rw [if_pos hm]
    simp [call_ollama, hr]
  · intro out rc o e hl hm hr hrc
    unfold generate_post_with_ollama generate_post_body
    simp only [check_ollama_available, hl]
    rw [if_neg (by simp)]
    rw [if_pos hm]
    simp [call_ollama, hr, hrc]

/-- Witness for the amended C10 across the concrete failure environments. -/
theorem generate_post_failure_paths_witness :
    generate_post_with_ollama olEnvUnavail [] [] ⟨2025, 1, 1⟩ ⟨2025, 1, 2⟩ "llama2" = none
    ∧ generate_post_with_ollama olEnvProbeFail [] [] ⟨2025, 1, 1⟩ ⟨2025, 1, 2⟩ "llama2" = none
    ∧ generate_post_with_ollama olEnvNoModels [] [] ⟨2025, 1, 1⟩ ⟨2025, 1, 2⟩ "llama2" = none
    ∧ generate_post_with_ollama olEnvRunRaise [] [] ⟨2025, 1, 1⟩ ⟨2025, 1, 2⟩ "llama2" = none
    ∧ generate_post_with_ollama olEnvExitErr [] [] ⟨2025, 1, 1⟩ ⟨2025, 1, 2⟩ "llama3"
        = some (clean_generated_post ("❌ Ollama Error: " ++ pyStrip "boom")) :=
  ⟨(generate_post_failure_paths olEnvUnavail [] [] ⟨2025, 1, 1⟩ ⟨2025, 1, 2⟩ "llama2").1
      1 "daemon not running" rfl (by decide),
   (generate_post_failure_paths olEnvProbeFail [] [] ⟨2025, 1, 1⟩ ⟨2025, 1, 2⟩ "llama2").2.1
      "No such file or directory: \x27ollama\x27" rfl,
   (generate_post_failure_paths olEnvNoModels [] [] ⟨2025, 1, 1⟩ ⟨2025, 1, 2⟩ "llama2").2.2.1
      "NAME ID SIZE" rfl (by decide),
   (generate_post_failure_paths olEnvRunRaise [] [] ⟨2025, 1, 1⟩ ⟨2025, 1, 2⟩ "llama2").2.2.2.1
      "NAME ID SIZE\nllama2 abc 1GB\n" "ollama vanished" rfl (by decide) rfl,
   (generate_post_failure_paths olEnvExitErr [] [] ⟨2025, 1, 1⟩ ⟨2025, 1, 2⟩ "llama3").2.2.2.2
      "NAME ID SIZE\nllama3 abc 1GB\n" 1 "" "boom" rfl (by decide) rfl (by decide)⟩
